import Mathlib

/-
Verification of the FastScapecc mesh-deformation plugin
(source/mesh_deformation/fastscapecc.cc) against its specification.

The development shallowly embeds the plugin's surface-coupling engine:
machine doubles are modelled as exact rationals (and as reals where a
square root is unavoidable), machine integers as naturals, MPI effects as
explicit event lists, and the external fastscapelib / healpix operations
(flow routing, drainage accumulation, stream-power erosion, vec2pix) as
abstract function parameters, since their internals are out of scope.
-/

namespace Fastscapecc

/-- One astronomical year in seconds, as defined by the host solver
(60*60*24*365.2425 = 31556952, exactly representable). -/
def year_in_seconds : ℚ := 31556952

/-- Sentinel elevation used to initialize the gathered elevation array
(fastscapecc.cc line 152): std::numeric_limits<double>::max()
= (2 - 2^-52) * 2^1023 = (2^53 - 1) * 2^971. -/
def sentinel : ℚ := (2 ^ 53 - 1) * 2 ^ 971

/-- One surface sample as pushed into temporary_variables
(fastscapecc.cc lines 140-142): a landscape-grid cell index, the local
elevation value, and the sampled velocity scalar. -/
structure Sample where
  index : ℕ
  elev : ℚ
  vel : ℚ
deriving DecidableEq

/-- Merging one rank's sample arrays into the dense global elevation and
uplift-rate fields by direct indexed write, last writer wins
(fastscapecc.cc lines 156-161 and 178-183). -/
def mergeSamples (samples : List Sample) (h vz : ℕ → ℚ) : (ℕ → ℚ) × (ℕ → ℚ) :=
  samples.foldl
    (fun hv s => (Function.update hv.1 s.index s.elev, Function.update hv.2 s.index s.vel))
    (h, vz)

/-- The coordinator-side gather (fastscapecc.cc lines 152-184): the
elevation field h starts at the sentinel everywhere, the uplift-rate
field vz starts at zero everywhere, then the coordinator's own samples
and every other rank's samples (in increasing rank order) are merged in. -/
def gatherFields (perRank : List (List Sample)) : (ℕ → ℚ) × (ℕ → ℚ) :=
  perRank.foldl (fun hv samples => mergeSamples samples hv.1 hv.2)
    (fun _ => sentinel, fun _ => 0)

/-- Geometry kind stored by the plugin. parse_parameters sets Box or
SphericalShell from the model name; any other model name leaves the
member at its declared default, modelled here by the third constructor
(the class declaration lives in the header, which is not part of the
sources; the spec only fixes that exactly Box and SphericalShell are
supported). -/
inductive GeometryType
  | Box
  | SphericalShell
  | Unset
deriving DecidableEq

/-- The healpix grid resolution parameter computed at initialization for
the spherical geometry (fastscapecc.cc line 80):
nsides = (int) sqrt(48 * 2^((arl + srd + msrl) * 2) / 12). -/
def nsides (additional_refinement_levels surface_refinement_difference
    maximum_surface_refinement_level : ℕ) : ℕ :=
  Nat.sqrt (48 * 2 ^ ((additional_refinement_levels + surface_refinement_difference
      + maximum_surface_refinement_level) * 2) / 12)

/-- The box geometry data consumed at initialization: origin and extents
in x and y. -/
structure BoxGeometry where
  origin_x : ℚ
  origin_y : ℚ
  extent_x : ℚ
  extent_y : ℚ

/-- The coupling state set up by a successful initialization: either the
planar-grid members (fastscapecc.cc lines 61-74) or the spherical
resolution parameter (line 80). -/
inductive CouplingState
  | boxState (grid_extent_x grid_extent_y : ℚ × ℚ) (nx ny : ℕ) (dx dy : ℚ)
      (x_extent y_extent : ℚ) (array_size : ℕ)
  | sphericalState (nsides : ℕ)

/-- The initialize entry point of the plugin (fastscapecc.cc lines 49-86):
Box sets up the planar grid members, SphericalShell computes nsides, and
any other geometry aborts with the AssertThrow message, establishing no
coupling state. -/
def fastscapecc_init (g : GeometryType) (box : BoxGeometry) (repetitions_x repetitions_y : ℕ)
    (additional_refinement_levels surface_refinement_difference
      maximum_surface_refinement_level : ℕ) : Except String CouplingState :=
  match g with
  | .Box =>
      .ok (.boxState (box.origin_x, box.extent_x) (box.origin_y, box.extent_y)
        (repetitions_x + 1) (repetitions_y + 1)
        (box.extent_x / repetitions_x) (box.extent_y / repetitions_y)
        box.extent_x box.extent_y ((repetitions_x + 1) * (repetitions_y + 1)))
  | .SphericalShell =>
      .ok (.sphericalState (nsides additional_refinement_levels surface_refinement_difference
        maximum_surface_refinement_level))
  | .Unset =>
      .error "FastScapecc plugin only supports Box or Spherical Shell geometries."

theorem mergeSamples_not_written (samples : List Sample) (h vz : ℕ → ℚ) (i : ℕ)
    (hi : ∀ s ∈ samples, s.index ≠ i) :
    (mergeSamples samples h vz).1 i = h i ∧ (mergeSamples samples h vz).2 i = vz i := by
  induction samples generalizing h vz with
  | nil => exact ⟨rfl, rfl⟩
  | cons s rest ih =>
      have hs : s.index ≠ i := hi s (List.mem_cons_self s rest)
      have hrest : ∀ t ∈ rest, t.index ≠ i := fun t ht => hi t (List.mem_cons_of_mem s ht)
      have step : mergeSamples (s :: rest) h vz =
          mergeSamples rest (Function.update h s.index s.elev)
            (Function.update vz s.index s.vel) := rfl
      rw [step]
      rcases ih (Function.update h s.index s.elev) (Function.update vz s.index s.vel) hrest
        with ⟨h1, h2⟩
      rw [h1, h2, Function.update_noteq (Ne.symm hs), Function.update_noteq (Ne.symm hs)]
      exact ⟨rfl, rfl⟩

theorem gatherFields_not_written_aux (perRank : List (List Sample)) (i : ℕ)
    (hi : ∀ samples ∈ perRank, ∀ s ∈ samples, s.index ≠ i) :
    ∀ h vz : ℕ → ℚ,
      (perRank.foldl (fun hv samples => mergeSamples samples hv.1 hv.2) (h, vz)).1 i = h i ∧
      (perRank.foldl (fun hv samples => mergeSamples samples hv.1 hv.2) (h, vz)).2 i = vz i := by
  induction perRank with
  | nil => exact fun h vz => ⟨rfl, rfl⟩
  | cons samples rest ih =>
      intro h vz
      have hs := hi samples (List.mem_cons_self samples rest)
      have hrest : ∀ t ∈ rest, ∀ s ∈ t, s.index ≠ i :=
        fun t ht => hi t (List.mem_cons_of_mem samples ht)
      have step : (samples :: rest).foldl (fun hv t => mergeSamples t hv.1 hv.2) (h, vz) =
          rest.foldl (fun hv t => mergeSamples t hv.1 hv.2) (mergeSamples samples h vz) := by
        simp [List.foldl_cons]
      rw [step]
      rcases mergeSamples_not_written samples h vz i hs with ⟨m1, m2⟩
      rcases ih hrest (mergeSamples samples h vz).1 (mergeSamples samples h vz).2 with ⟨r1, r2⟩
      have heta : mergeSamples samples h vz =
          ((mergeSamples samples h vz).1, (mergeSamples samples h vz).2) := rfl
      rw [heta]
      exact ⟨r1.trans m1, r2.trans m2⟩

/-- Claim C5: a cell index written by no sample of any rank still holds the
sentinel elevation (the largest representable double) when the evolution
loop starts, and its uplift-rate entry is zero. -/
theorem unmapped_cell_keeps_sentinel_and_zero_uplift (perRank : List (List Sample)) (i : ℕ)
    (hi : ∀ samples ∈ perRank, ∀ s ∈ samples, s.index ≠ i) :
    (gatherFields perRank).1 i = sentinel ∧ (gatherFields perRank).2 i = 0 := by
  have := gatherFields_not_written_aux perRank i hi (fun _ => sentinel) (fun _ => 0)
  exact this

theorem unmapped_cell_keeps_sentinel_and_zero_uplift_witness :
    (∀ samples ∈ [[Sample.mk 0 1 2], [Sample.mk 3 7 9]], ∀ s ∈ samples, s.index ≠ 5) ∧
    ((gatherFields [[Sample.mk 0 1 2], [Sample.mk 3 7 9]]).1 5 = sentinel ∧
      (gatherFields [[Sample.mk 0 1 2], [Sample.mk 3 7 9]]).2 5 = 0) :=
  ⟨by decide,
    unmapped_cell_keeps_sentinel_and_zero_uplift [[Sample.mk 0 1 2], [Sample.mk 3 7 9]] 5
      (by decide)⟩

/-- Claim C6: initialization fails (with the fatal AssertThrow) exactly when
the stored geometry type is neither Box nor SphericalShell; a failure
returns an error and no CouplingState is established. -/
theorem init_fails_iff_unsupported_geometry (g : GeometryType) (box : BoxGeometry)
    (rx ry arl srd msrl : ℕ) :
    (∃ e, fastscapecc_init g box rx ry arl srd msrl = .error e) ↔
      ¬(g = GeometryType.Box ∨ g = GeometryType.SphericalShell) := by
  cases g <;> simp [fastscapecc_init]

/-- Claim C7: the spherical resolution parameter equals
2^(additional_refinement_levels + surface_refinement_difference +
maximum_surface_refinement_level + 1), an exact power of two. -/
theorem nsides_is_power_of_two (arl srd msrl : ℕ) :
    nsides arl srd msrl = 2 ^ (arl + srd + msrl + 1) := by
  unfold nsides
  have h1 : 48 * 2 ^ ((arl + srd + msrl) * 2) =
      12 * (2 ^ (arl + srd + msrl + 1) * 2 ^ (arl + srd + msrl + 1)) := by
    rw [← pow_add]
    have h2 : (arl + srd + msrl + 1) + (arl + srd + msrl + 1) =
        (arl + srd + msrl) * 2 + 2 := by ring
    rw [h2, pow_add]
    ring
  rw [h1, Nat.mul_div_cancel_left _ (by norm_num : 0 < 12), Nat.sqrt_eq]

/-- The sub-step refinement loop (fastscapecc.cc lines 195-199): while the
current sub-step duration dt exceeds the configured maximum D, double the
iteration count and halve dt. The C++ while-loop is embedded with an
explicit fuel bound; the theorems assume the fuel suffices for
termination, which any positive D permits. -/
def subcycleLoop (D : ℚ) : ℕ → ℕ → ℚ → ℕ × ℚ
  | 0, iters, dt => (iters, dt)
  | fuel + 1, iters, dt =>
      if D < dt then subcycleLoop D fuel (iters * 2) (dt / 2) else (iters, dt)

/-- The sub-step count and duration selection (fastscapecc.cc lines
193-199): start from the configured base count B with duration T / B and
run the refinement loop. -/
def fastscapeSubcycle (fuel B : ℕ) (T D : ℚ) : ℕ × ℚ :=
  subcycleLoop D fuel B (T / (B : ℚ))

theorem subcycleLoop_spec (T D : ℚ) (B : ℕ) :
    ∀ fuel a : ℕ, T / ((B : ℚ) * 2 ^ (a + fuel)) ≤ D →
      ∃ k, a ≤ k ∧
        subcycleLoop D fuel (B * 2 ^ a) (T / ((B : ℚ) * 2 ^ a)) =
          (B * 2 ^ k, T / ((B : ℚ) * 2 ^ k)) ∧
        T / ((B : ℚ) * 2 ^ k) ≤ D ∧
        ∀ j, a ≤ j → T / ((B : ℚ) * 2 ^ j) ≤ D → k ≤ j := by
  intro fuel
  induction fuel with
  | zero =>
      intro a ha
      exact ⟨a, le_refl a, rfl, by simpa using ha, fun j hj _ => hj⟩
  | succ fuel ih =>
      intro a ha
      by_cases hd : D < T / ((B : ℚ) * 2 ^ a)
      · have harg : (a + 1) + fuel = a + (fuel + 1) := by ring
        have ha' : T / ((B : ℚ) * 2 ^ ((a + 1) + fuel)) ≤ D := by rw [harg]; exact ha
        obtain ⟨k, hk1, hk2, hk3, hk4⟩ := ih (a + 1) ha'
        refine ⟨k, le_trans (Nat.le_succ a) hk1, ?_, hk3, ?_⟩
        · have hstep : subcycleLoop D (fuel + 1) (B * 2 ^ a) (T / ((B : ℚ) * 2 ^ a)) =
              subcycleLoop D fuel (B * 2 ^ a * 2) (T / ((B : ℚ) * 2 ^ a) / 2) := by
            simp [subcycleLoop, hd]
          have hiters : B * 2 ^ a * 2 = B * 2 ^ (a + 1) := by
            rw [pow_succ, ← mul_assoc]
          have hdt : T / ((B : ℚ) * 2 ^ a) / 2 = T / ((B : ℚ) * 2 ^ (a + 1)) := by
            rw [div_div, mul_assoc, ← pow_succ]
          rw [hstep, hiters, hdt]
          exact hk2
        · intro j hj hjle
          rcases Nat.lt_or_ge a j with hlt | hge
          · exact hk4 j hlt hjle
          · exfalso
            have : j = a := le_antisymm hge hj
            rw [this] at hjle
            exact absurd (lt_of_lt_of_le hd hjle) (lt_irrefl D)
      · push_neg at hd
        refine ⟨a, le_refl a, ?_, hd, fun j hj _ => hj⟩
        simp [subcycleLoop, not_lt.mpr hd]

/-- Claim C2: for a host timestep duration T > 0 (in the engine's unit of
years), base step count B >= 1 and maximum sub-step duration D > 0, the
chosen sub-step count is the smallest value of the form B * 2^k with
T / (B * 2^k) <= D, and the per-sub-step duration equals T divided by
that count. The fuel hypothesis states that the embedded loop's fuel
bound suffices, which holds for all large enough fuel whenever D > 0. -/
theorem fastscape_subcycle_minimal (fuel B : ℕ) (T D : ℚ)
    (hB : 1 ≤ B) (hT : 0 < T) (hD : 0 < D)
    (hfuel : T / ((B : ℚ) * 2 ^ fuel) ≤ D) :
    (∃ k, (fastscapeSubcycle fuel B T D).1 = B * 2 ^ k ∧
        T / ((B : ℚ) * 2 ^ k) ≤ D) ∧
    (∀ j, T / ((B : ℚ) * 2 ^ j) ≤ D →
        (fastscapeSubcycle fuel B T D).1 ≤ B * 2 ^ j) ∧
    (fastscapeSubcycle fuel B T D).2 =
      T / (((fastscapeSubcycle fuel B T D).1 : ℕ) : ℚ) := by
  have h0 : T / ((B : ℚ) * 2 ^ (0 + fuel)) ≤ D := by simpa using hfuel
  obtain ⟨k, -, hk2, hk3, hk4⟩ := subcycleLoop_spec T D B fuel 0 h0
  have hstart : fastscapeSubcycle fuel B T D =
      subcycleLoop D fuel (B * 2 ^ 0) (T / ((B : ℚ) * 2 ^ 0)) := by
    simp [fastscapeSubcycle]
  rw [hstart, hk2]
  refine ⟨⟨k, rfl, hk3⟩, ?_, ?_⟩
  · intro j hjle
    have hkj : k ≤ j := hk4 j (Nat.zero_le j) hjle
    exact Nat.mul_le_mul (le_refl B) (Nat.pow_le_pow_right (by norm_num) hkj)
  · push_cast
    rfl

theorem fastscape_subcycle_minimal_witness :
    (1 ≤ 10 ∧ (0 : ℚ) < 10 ^ 6 ∧ (0 : ℚ) < 10 ^ 4 ∧
      (10 ^ 6 : ℚ) / (((10 : ℕ) : ℚ) * 2 ^ 4) ≤ 10 ^ 4) ∧
    ((∃ k, (fastscapeSubcycle 4 10 (10 ^ 6) (10 ^ 4)).1 = 10 * 2 ^ k ∧
        (10 ^ 6 : ℚ) / (((10 : ℕ) : ℚ) * 2 ^ k) ≤ 10 ^ 4) ∧
    (∀ j, (10 ^ 6 : ℚ) / (((10 : ℕ) : ℚ) * 2 ^ j) ≤ 10 ^ 4 →
        (fastscapeSubcycle 4 10 (10 ^ 6) (10 ^ 4)).1 ≤ 10 * 2 ^ j) ∧
    (fastscapeSubcycle 4 10 (10 ^ 6) (10 ^ 4)).2 =
      (10 ^ 6 : ℚ) / (((fastscapeSubcycle 4 10 (10 ^ 6) (10 ^ 4)).1 : ℕ) : ℚ)) :=
  ⟨⟨by norm_num, by norm_num, by norm_num, by norm_num⟩,
    fastscape_subcycle_minimal 4 10 (10 ^ 6) (10 ^ 4) (by norm_num) (by norm_num)
      (by norm_num) (by norm_num)⟩

/-- The configuration tuple of the stream-power eroder as built by
make_spl_eroder (fastscapecc.cc line 209): k_coef, area_exp, slope_exp,
tolerance. -/
structure Eroder where
  k_coef : ℚ
  area_exp : ℚ
  slope_exp : ℚ
  tolerance : ℚ
deriving DecidableEq

/-- The eroder the plugin actually constructs (fastscapecc.cc line 209):
make_spl_eroder(flow_graph, 2e-4, 0.4, 1, 1e-5), fixed built-in constants
independent of the parsed erosional parameters. -/
def spl_eroder : Eroder :=
  { k_coef := 2 / 10 ^ 4, area_exp := 4 / 10, slope_exp := 1, tolerance := 1 / 10 ^ 5 }

/-- The external fastscapelib operations used by the sub-step loop, kept
abstract over an arbitrary flow-graph state type G: flow-routing update,
drainage-area accumulation, flux accumulation of a field, and the
stream-power erosion step. Their internals are out of scope of the spec
(black-box evolve contract). -/
structure EvolveOps (G : Type) where
  updateRoutes : G → (ℕ → ℚ) → G
  accumulateArea : G → ℚ → ℕ → ℚ
  accumulateFlux : G → (ℕ → ℚ) → ℕ → ℚ
  splErode : Eroder → G → (ℕ → ℚ) → (ℕ → ℚ) → ℚ → ℕ → ℚ

/-- The coordinator-local landscape state threaded through the sub-step
loop (fastscapecc.cc lines 201-228). -/
structure LoopState (G : Type) where
  graph : G
  elevation : ℕ → ℚ
  drainage_area : ℕ → ℚ
  sediment_flux : ℕ → ℚ
  uplifted_elevation : ℕ → ℚ

/-- The state entering the loop: the given flow graph, the gathered
elevation field, and zero-initialized work arrays (fastscapecc.cc lines
211-218). -/
def initLoopState {G : Type} (g0 : G) (h : ℕ → ℚ) : LoopState G :=
  { graph := g0, elevation := h, drainage_area := fun _ => 0,
    sediment_flux := fun _ => 0, uplifted_elevation := fun _ => 0 }

/-- One sub-step of the evolution loop (fastscapecc.cc lines 220-228):
uplift the elevation by dt * uplift_rate, recompute flow routes on the
uplifted topography, accumulate drainage area, apply the stream-power
erosion, accumulate the sediment flux, and subtract the erosion from the
uplifted elevation. -/
def substep {G : Type} (ops : EvolveOps G) (er : Eroder) (dt : ℚ) (uplift_rate : ℕ → ℚ)
    (st : LoopState G) : LoopState G :=
  let uplifted : ℕ → ℚ := fun i => st.elevation i + dt * uplift_rate i
  let g := ops.updateRoutes st.graph uplifted
  let da := ops.accumulateArea g 1
  let ero := ops.splErode er g uplifted da dt
  let sed := ops.accumulateFlux g ero
  { graph := g, elevation := fun i => uplifted i - ero i, drainage_area := da,
    sediment_flux := sed, uplifted_elevation := uplifted }

/-- The sub-cycled evolution loop: n iterations of substep. -/
def evolve {G : Type} (ops : EvolveOps G) (er : Eroder) (dt : ℚ) (uplift_rate : ℕ → ℚ) :
    ℕ → LoopState G → LoopState G
  | 0, st => st
  | n + 1, st => evolve ops er dt uplift_rate n (substep ops er dt uplift_rate st)

/-- The intended semantics of the velocity derivation (fastscapecc.cc
lines 230-236): per cell, (final elevation - previous elevation) divided
by the host timestep duration expressed in years. Note that the source
line 231 constructs the previous-elevation copy from the iterator pair
(elevation_old.begin(), elevation.end()), whose two iterators point into
two different arrays - undefined behaviour in C++; this definition uses
the intended copy of elevation_old, and the theorems for claims C1 and C4
record the divergence. -/
def outputVelocity (T_years : ℚ) (h_old h_final : ℕ → ℚ) : ℕ → ℚ :=
  fun i => (h_final i - h_old i) / T_years

/-- The full coordinator-side computation for one coupling step
(fastscapecc.cc lines 149-236, with the line-231 copy taken as intended):
gather the per-rank samples into the global elevation and uplift-rate
fields, snapshot the elevation, pick the sub-step count and duration, run
the evolution loop, and derive the output velocity field. -/
def coordinatorCompute {G : Type} (ops : EvolveOps G) (g0 : G) (fuel : ℕ)
    (fastscape_steps_per_aspect_step : ℕ) (maximum_fastscape_timestep : ℚ)
    (timestep : ℚ) (perRank : List (List Sample)) : ℕ → ℚ :=
  let hv := gatherFields perRank
  let T := timestep / year_in_seconds
  let r := fastscapeSubcycle fuel fastscape_steps_per_aspect_step T maximum_fastscape_timestep
  let final := (evolve ops spl_eroder r.2 hv.2 r.1 (initLoopState g0 hv.1)).elevation
  outputVelocity T hv.1 final

/-- Claim C1 (intended semantics): the output velocity at every cell i is
the final elevation after the sub-cycled loop minus the pre-loop snapshot
of the gathered elevation at i, divided by the host timestep duration in
years. The source itself never computes this: its line 231 builds the
snapshot copy from iterators into two different arrays (undefined
behaviour), so the claim records a code bug. -/
theorem velocity_is_elevation_change_over_host_step {G : Type} (ops : EvolveOps G) (g0 : G)
    (fuel B : ℕ) (D timestep : ℚ) (perRank : List (List Sample)) (i : ℕ) :
    coordinatorCompute ops g0 fuel B D timestep perRank i =
      ((evolve ops spl_eroder
          (fastscapeSubcycle fuel B (timestep / year_in_seconds) D).2
          (gatherFields perRank).2
          (fastscapeSubcycle fuel B (timestep / year_in_seconds) D).1
          (initLoopState g0 (gatherFields perRank).1)).elevation i
        - (gatherFields perRank).1 i) / (timestep / year_in_seconds) := rfl

theorem evolve_elevation_invariant {G : Type} (ops : EvolveOps G) (er : Eroder)
    (dt : ℚ) (uplift_rate : ℕ → ℚ)
    (hup : ∀ i, uplift_rate i = 0)
    (hero : ∀ g e d t i, ops.splErode er g e d t i = 0) :
    ∀ (n : ℕ) (st : LoopState G) (i : ℕ),
      (evolve ops er dt uplift_rate n st).elevation i = st.elevation i := by
  intro n
  induction n with
  | zero => intro st i; rfl
  | succ n ih =>
      intro st i
      have hsub : ∀ j, (substep ops er dt uplift_rate st).elevation j = st.elevation j := by
        intro j
        simp [substep, hup, hero]
      calc (evolve ops er dt uplift_rate (n + 1) st).elevation i
          = (evolve ops er dt uplift_rate n (substep ops er dt uplift_rate st)).elevation i := rfl
        _ = (substep ops er dt uplift_rate st).elevation i := ih _ i
        _ = st.elevation i := hsub i

/-- Claim C4 (intended semantics): if the uplift-rate field is identically
zero and the erosion step in effect produces zero erosion (the spec's
stream-power contract at zero incision and diffusion rates), the
elevation is unchanged by every sub-step and the derived output velocity
field is identically zero. The source never reaches this output: its
line 231 snapshot copy is undefined behaviour, recorded as a code bug. -/
theorem zero_uplift_zero_erosion_zero_velocity {G : Type} (ops : EvolveOps G) (er : Eroder)
    (dt T : ℚ) (uplift_rate : ℕ → ℚ) (n : ℕ) (st : LoopState G) (i : ℕ)
    (hup : ∀ j, uplift_rate j = 0)
    (hero : ∀ g e d t j, ops.splErode er g e d t j = 0) :
    (evolve ops er dt uplift_rate n st).elevation i = st.elevation i ∧
    outputVelocity T st.elevation ((evolve ops er dt uplift_rate n st).elevation) i = 0 := by
  have hinv := evolve_elevation_invariant ops er dt uplift_rate hup hero n st i
  refine ⟨hinv, ?_⟩
  simp [outputVelocity, hinv]

/-- Trivial instantiation of the abstract fastscapelib operations, used by
the witnesses. -/
def trivialOps : EvolveOps Unit :=
  { updateRoutes := fun _ _ => (), accumulateArea := fun _ _ _ => 0,
    accumulateFlux := fun _ _ _ => 0, splErode := fun _ _ _ _ _ _ => 0 }

/-- A concrete loop state used by the witnesses. -/
def demoState : LoopState Unit :=
  { graph := (), elevation := fun i => (i : ℚ), drainage_area := fun _ => 0,
    sediment_flux := fun _ => 0, uplifted_elevation := fun _ => 0 }

theorem zero_uplift_zero_erosion_zero_velocity_witness :
    ((∀ j : ℕ, (fun _ : ℕ => (0 : ℚ)) j = 0) ∧
      (∀ g e d t j, trivialOps.splErode spl_eroder g e d t j = 0)) ∧
    ((evolve trivialOps spl_eroder 5 (fun _ => 0) 3 demoState).elevation 2 =
        demoState.elevation 2 ∧
      outputVelocity 7 demoState.elevation
        ((evolve trivialOps spl_eroder 5 (fun _ => 0) 3 demoState).elevation) 2 = 0) :=
  ⟨⟨fun _ => rfl, fun _ _ _ _ _ => rfl⟩,
    zero_uplift_zero_erosion_zero_velocity trivialOps spl_eroder 5 7 (fun _ => 0) 3
      demoState 2 (fun _ => rfl) (fun _ _ _ _ _ => rfl)⟩

/-- The per-run configuration stored by parse_parameters (fastscapecc.cc
lines 508-550), restricted to the fields relevant to the coupling step:
the sub-stepping controls and refinement levels, followed by the
erosional parameters (drainage-area exponent m, slope exponent n,
sediment/bedrock incision rates kfsed/kff, sediment/bedrock diffusivities
kdsed/kdd) and the declared-but-never-parsed elevation factor. -/
structure Params where
  fastscape_steps_per_aspect_step : ℕ
  maximum_fastscape_timestep : ℚ
  additional_refinement_levels : ℕ
  maximum_surface_refinement_level : ℕ
  surface_refinement_difference : ℕ
  m : ℚ
  n : ℚ
  kfsed : ℚ
  kff : ℚ
  kdsed : ℚ
  kdd : ℚ
  elevation_factor : ℚ

/-- The default configuration from declare_parameters (fastscapecc.cc
lines 349-426). -/
def defaultParams : Params :=
  { fastscape_steps_per_aspect_step := 10, maximum_fastscape_timestep := 10 ^ 4,
    additional_refinement_levels := 0, maximum_surface_refinement_level := 1,
    surface_refinement_difference := 0, m := 4 / 10, n := 1, kfsed := -1,
    kff := 1 / 10 ^ 5, kdsed := -1, kdd := 1 / 10 ^ 2, elevation_factor := 1 }

/-- The deal.II boundary-value interpolation as used at fastscapecc.cc
lines 258-261, abstracted: every degree of freedom lying on boundary b
receives the boundary function's value; all other entries of the
constraints object are untouched. -/
def interpolateBoundaryValues (dofsOf : ℕ → Finset ℕ) (b : ℕ) (f : ℕ → ℚ)
    (cs : ℕ → Option ℚ) : ℕ → Option ℚ :=
  fun d => if d ∈ dofsOf b then some (f d) else cs d

/-- Observable effects of one coupling step: surface samples taken and the
broadcast of the velocity array. -/
inductive Event
  | sampled : Sample → Event
  | broadcastV : (ℕ → ℚ) → Event

/-- The result of one coupling step: the velocity-constraints object, the
list of observable effects, and the broadcast velocity field. -/
structure CouplingResult where
  constraints : ℕ → Option ℚ
  events : List Event
  V : ℕ → ℚ

/-- The coupling entry point compute_velocity_constraints_on_boundary
(fastscapecc.cc lines 88-262), from the coordinating rank's point of
view. On timestep 0 it returns immediately (lines 94-95). Otherwise it
gathers the local and received samples, runs the coordinator computation
(sub-cycled evolution and velocity derivation, intended semantics of the
line-231 snapshot), broadcasts the velocity field, and imposes it as a
boundary constraint on the first element of the ordered boundary-id set
(line 259: *boundary_ids.begin(), the smallest id). lookup is the
composition of a degree of freedom's support point with the healpix
vec2pix mapper used by the interpolation lambda (lines 247-251). -/
def compute_velocity_constraints_on_boundary {G : Type} (ops : EvolveOps G) (g0 : G)
    (P : Params) (fuel ts : ℕ) (timestep : ℚ)
    (localSamples : List Sample) (received : List (List Sample))
    (lookup : ℕ → ℕ) (dofsOf : ℕ → Finset ℕ) (boundary_ids : Finset ℕ)
    (cs : ℕ → Option ℚ) : CouplingResult :=
  if ts = 0 then { constraints := cs, events := [], V := fun _ => 0 }
  else
    let V := coordinatorCompute ops g0 fuel P.fastscape_steps_per_aspect_step
      P.maximum_fastscape_timestep timestep (localSamples :: received)
    let csOut :=
      if hne : boundary_ids.Nonempty then
        interpolateBoundaryValues dofsOf (boundary_ids.min' hne) (fun d => V (lookup d)) cs
      else cs
    { constraints := csOut,
      events := localSamples.map Event.sampled ++ [Event.broadcastV V],
      V := V }

/-- Claim C8: on timestep number 0 the coupling operation returns
immediately: the constraints object is unchanged and no sampling or
communication event occurs. -/
theorem first_timestep_early_return {G : Type} (ops : EvolveOps G) (g0 : G) (P : Params)
    (fuel ts : ℕ) (timestep : ℚ) (localSamples : List Sample)
    (received : List (List Sample)) (lookup : ℕ → ℕ) (dofsOf : ℕ → Finset ℕ)
    (boundary_ids : Finset ℕ) (cs : ℕ → Option ℚ) (hts : ts = 0) :
    (compute_velocity_constraints_on_boundary ops g0 P fuel ts timestep localSamples
        received lookup dofsOf boundary_ids cs).constraints = cs ∧
    (compute_velocity_constraints_on_boundary ops g0 P fuel ts timestep localSamples
        received lookup dofsOf boundary_ids cs).events = [] := by
  subst hts
  exact ⟨rfl, rfl⟩

theorem first_timestep_early_return_witness :
    (0 = 0) ∧
    ((compute_velocity_constraints_on_boundary trivialOps () defaultParams 0 0 0 []
        [] id (fun _ => ∅) ∅ (fun _ => none)).constraints = (fun _ => none) ∧
      (compute_velocity_constraints_on_boundary trivialOps () defaultParams 0 0 0 []
        [] id (fun _ => ∅) ∅ (fun _ => none)).events = []) :=
  ⟨rfl, first_timestep_early_return trivialOps () defaultParams 0 0 0 [] [] id
    (fun _ => ∅) ∅ (fun _ => none) rfl⟩

/-- Claim C9: two coupling steps identical except for the configured
erosional parameters (m, n, kfsed, kff, kdsed, kdd, elevation factor)
produce identical results; the parsed erosional parameters have no
influence on the computation, which uses the fixed built-in eroder
constants. -/
theorem erosional_parameters_no_influence {G : Type} (ops : EvolveOps G) (g0 : G)
    (p1 p2 : Params) (fuel ts : ℕ) (timestep : ℚ) (localSamples : List Sample)
    (received : List (List Sample)) (lookup : ℕ → ℕ) (dofsOf : ℕ → Finset ℕ)
    (boundary_ids : Finset ℕ) (cs : ℕ → Option ℚ)
    (h1 : p1.fastscape_steps_per_aspect_step = p2.fastscape_steps_per_aspect_step)
    (h2 : p1.maximum_fastscape_timestep = p2.maximum_fastscape_timestep)
    (h3 : p1.additional_refinement_levels = p2.additional_refinement_levels)
    (h4 : p1.maximum_surface_refinement_level = p2.maximum_surface_refinement_level)
    (h5 : p1.surface_refinement_difference = p2.surface_refinement_difference) :
    compute_velocity_constraints_on_boundary ops g0 p1 fuel ts timestep localSamples
        received lookup dofsOf boundary_ids cs =
      compute_velocity_constraints_on_boundary ops g0 p2 fuel ts timestep localSamples
        received lookup dofsOf boundary_ids cs := by
  obtain ⟨a1, a2, a3, a4, a5, a6, a7, a8, a9, a10, a11, a12⟩ := p1
  obtain ⟨b1, b2, b3, b4, b5, b6, b7, b8, b9, b10, b11, b12⟩ := p2
  simp only at h1 h2 h3 h4 h5
  subst h1 h2 h3 h4 h5
  rfl

/-- A configuration equal to the defaults except for every erosional
parameter, used by the C9 witness. -/
def alteredErosionParams : Params :=
  { defaultParams with
    m := 9
    n := 8
    kfsed := 7
    kff := 6
    kdsed := 5
    kdd := 4
    elevation_factor := 3 }

theorem erosional_parameters_no_influence_witness :
    (defaultParams.fastscape_steps_per_aspect_step =
        alteredErosionParams.fastscape_steps_per_aspect_step ∧
      defaultParams.maximum_fastscape_timestep =
        alteredErosionParams.maximum_fastscape_timestep ∧
      defaultParams.additional_refinement_levels =
        alteredErosionParams.additional_refinement_levels ∧
      defaultParams.maximum_surface_refinement_level =
        alteredErosionParams.maximum_surface_refinement_level ∧
      defaultParams.surface_refinement_difference =
        alteredErosionParams.surface_refinement_difference) ∧
    compute_velocity_constraints_on_boundary trivialOps () defaultParams 2 1 year_in_seconds
        [Sample.mk 0 3 4] [] id (fun _ => {0}) {0} (fun _ => none) =
      compute_velocity_constraints_on_boundary trivialOps () alteredErosionParams 2 1
        year_in_seconds [Sample.mk 0 3 4] [] id (fun _ => {0}) {0} (fun _ => none) :=
  ⟨⟨rfl, rfl, rfl, rfl, rfl⟩,
    erosional_parameters_no_influence trivialOps () defaultParams alteredErosionParams 2 1
      year_in_seconds [Sample.mk 0 3 4] [] id (fun _ => {0}) {0} (fun _ => none)
      rfl rfl rfl rfl rfl⟩

/-- Claim C10 counterexample: the claim as stated is false for degrees of
freedom shared between boundaries. With boundary-id set {1, 2}, dof 30
lies on boundary 2 - an id of the set other than the smallest - and also
on the smallest id's boundary 1; it is NOT left unconstrained by the
operation: the imposition targets every dof of the smallest id's
boundary, so the constraints entry of dof 30 changes from none to a set
value. -/
theorem constraints_on_shared_dof_cex :
    2 ∈ ({1, 2} : Finset ℕ) ∧
    2 ≠ ({1, 2} : Finset ℕ).min' (by decide) ∧
    30 ∈ (fun b => if b = 1 then ({10, 30} : Finset ℕ) else {30}) 2 ∧
    (compute_velocity_constraints_on_boundary trivialOps () defaultParams 2 1
        year_in_seconds [] [] id
        (fun b => if b = 1 then ({10, 30} : Finset ℕ) else {30}) {1, 2}
        (fun _ => none)).constraints 30 ≠ (fun _ => (none : Option ℚ)) 30 := by
  refine ⟨by decide, by decide, by decide, ?_⟩
  decide

/-- Claim C10 as amended: with a non-empty boundary-id set, the constraint
is imposed only on the single smallest id in the set: a degree of freedom
on any other boundary id of the set that does not also lie on the
smallest id's boundary keeps its previous constraints entry (a dof shared
with the smallest id's boundary is constrained, as the counterexample
shows). -/
theorem constraints_only_on_smallest_boundary_id {G : Type} (ops : EvolveOps G) (g0 : G)
    (P : Params) (fuel ts : ℕ) (timestep : ℚ) (localSamples : List Sample)
    (received : List (List Sample)) (lookup : ℕ → ℕ) (dofsOf : ℕ → Finset ℕ)
    (boundary_ids : Finset ℕ) (cs : ℕ → Option ℚ)
    (hne : boundary_ids.Nonempty) (b : ℕ) (hb : b ∈ boundary_ids)
    (hbmin : b ≠ boundary_ids.min' hne) (d : ℕ) (hd : d ∈ dofsOf b)
    (hdmin : d ∉ dofsOf (boundary_ids.min' hne)) :
    (compute_velocity_constraints_on_boundary ops g0 P fuel ts timestep localSamples
        received lookup dofsOf boundary_ids cs).constraints d = cs d := by
  unfold compute_velocity_constraints_on_boundary
  by_cases hts : ts = 0
  · simp [hts]
  · simp only [hts, if_false]
    rw [dif_pos hne]
    simp [interpolateBoundaryValues, hdmin]

theorem constraints_only_on_smallest_boundary_id_witness :
    (({1, 2} : Finset ℕ).Nonempty ∧ 2 ∈ ({1, 2} : Finset ℕ) ∧
      2 ≠ ({1, 2} : Finset ℕ).min' (by decide) ∧
      20 ∈ (fun b => if b = 1 then ({10} : Finset ℕ) else {20}) 2 ∧
      20 ∉ (fun b => if b = 1 then ({10} : Finset ℕ) else {20})
        (({1, 2} : Finset ℕ).min' (by decide))) ∧
    (compute_velocity_constraints_on_boundary trivialOps () defaultParams 2 1
        year_in_seconds [Sample.mk 0 3 4] [] id
        (fun b => if b = 1 then ({10} : Finset ℕ) else {20}) {1, 2}
        (fun _ => none)).constraints 20 = (fun _ => (none : Option ℚ)) 20 :=
  ⟨⟨by decide, by decide, by decide, by decide, by decide⟩,
    constraints_only_on_smallest_boundary_id trivialOps () defaultParams 2 1
      year_in_seconds [Sample.mk 0 3 4] [] id
      (fun b => if b = 1 then ({10} : Finset ℕ) else {20}) {1, 2} (fun _ => none)
      (by decide) 2 (by decide) (by decide) 20 (by decide) (by decide)⟩

/-- A 3-D point or vector with real coordinates, for the per-quadrature
point sampler computation (fastscapecc.cc lines 131-143), where an exact
square root forces the use of reals. -/
structure Point3 where
  x : ℝ
  y : ℝ
  z : ℝ

/-- Dot product of two 3-vectors. -/
def dot3 (p v : Point3) : ℝ := p.x * v.x + p.y * v.y + p.z * v.z

/-- Euclidean norm, vertex.norm() in deal.II. -/
noncomputable def norm3 (p : Point3) : ℝ := Real.sqrt (p.x ^ 2 + p.y ^ 2 + p.z ^ 2)

/-- The radial velocity computed at fastscapecc.cc lines 137-138:
(x*vx + y*vy + z*vz) / |p|. -/
noncomputable def radial_velocity (p v : Point3) : ℝ := dot3 p v / norm3 p

/-- One sampled quadrature point as pushed into temporary_variables
(fastscapecc.cc lines 140-142), with real-valued entries. -/
structure SampleR where
  index : ℕ
  elevOrZ : ℝ
  vel : ℝ

/-- The per-point sampler computation (fastscapecc.cc lines 129-143):
cell index from the healpix vec2pix mapper (kept abstract, its internals
are external library code), elevation entry z - outer_radius, and
velocity entry radial_velocity * year_in_seconds. The function receives
the plugin's geometry type but, exactly as in the source, never inspects
it: there is no planar branch. -/
noncomputable def samplePoint (vec2pix : Point3 → ℕ) (g : GeometryType)
    (outer_radius : ℝ) (p v : Point3) : SampleR :=
  { index := vec2pix p, elevOrZ := p.z - outer_radius,
    vel := radial_velocity p v * ((year_in_seconds : ℚ) : ℝ) }

/-- Modelled from the spec: the claimed planar velocity scalar for box
geometry, the vertical component of the finite-element velocity. Used
only to compare the spec's words against the source's sampler. -/
def spec_vertical_velocity (v : Point3) : ℝ := v.z

/-- Claim C3 counterexample: at the surface point (3, 4, 0) with
finite-element velocity (0, 0, 1) and box geometry, the source's sampler
produces the velocity scalar year_in_seconds * (p . v) / |p| = 0, while
the spec's vertical component is 1; so for box geometry the sampler does
not compute the vertical component. -/
theorem sampler_box_vertical_velocity_cex :
    (samplePoint (fun _ => 0) GeometryType.Box 0 (Point3.mk 3 4 0) (Point3.mk 0 0 1)).vel ≠
      spec_vertical_velocity (Point3.mk 0 0 1) := by
  simp [samplePoint, radial_velocity, dot3, spec_vertical_velocity]

/-- Claim C3 as amended: for box geometry the sampler behaves exactly as
for spherical geometry - the cell index comes from the healpix spherical
mapper and the velocity scalar is the radial projection scaled by
year_in_seconds; it agrees with year_in_seconds times the vertical
component only in special positions such as points on the vertical
axis. -/
theorem sampler_box_uses_healpix_and_radial (vec2pix : Point3 → ℕ) (outer_radius : ℝ)
    (p v : Point3) (hx : p.x = 0) (hy : p.y = 0) (hz : 0 < p.z) :
    samplePoint vec2pix GeometryType.Box outer_radius p v =
        samplePoint vec2pix GeometryType.SphericalShell outer_radius p v ∧
    (samplePoint vec2pix GeometryType.Box outer_radius p v).index = vec2pix p ∧
    (samplePoint vec2pix GeometryType.Box outer_radius p v).vel =
        v.z * ((year_in_seconds : ℚ) : ℝ) := by
  refine ⟨rfl, rfl, ?_⟩
  have hnorm : norm3 p = p.z := by
    rw [norm3, hx, hy]
    simpa using Real.sqrt_sq hz.le
  have hdot : dot3 p v = p.z * v.z := by
    rw [dot3, hx, hy]
    ring
  simp only [samplePoint, radial_velocity, hnorm, hdot]
  rw [mul_div_cancel_left₀ _ (ne_of_gt hz)]

theorem sampler_box_uses_healpix_and_radial_witness :
    ((Point3.mk 0 0 2).x = 0 ∧ (Point3.mk 0 0 2).y = 0 ∧ (0 : ℝ) < (Point3.mk 0 0 2).z) ∧
    (samplePoint (fun _ => 7) GeometryType.Box 0 (Point3.mk 0 0 2) (Point3.mk 5 6 8) =
        samplePoint (fun _ => 7) GeometryType.SphericalShell 0 (Point3.mk 0 0 2)
          (Point3.mk 5 6 8) ∧
      (samplePoint (fun _ => 7) GeometryType.Box 0 (Point3.mk 0 0 2)
          (Point3.mk 5 6 8)).index = (fun _ : Point3 => 7) (Point3.mk 0 0 2) ∧
      (samplePoint (fun _ => 7) GeometryType.Box 0 (Point3.mk 0 0 2)
          (Point3.mk 5 6 8)).vel = (Point3.mk 5 6 8).z * ((year_in_seconds : ℚ) : ℝ)) :=
  ⟨⟨rfl, rfl, by norm_num⟩,
    sampler_box_uses_healpix_and_radial (fun _ => 7) 0 (Point3.mk 0 0 2) (Point3.mk 5 6 8)
      rfl rfl (by norm_num)⟩

end Fastscapecc
